import Mathlib

/-
Verification of the data-loading and state-reconciliation policy of the
WealthWave investment dashboard (React frontend).

The development shallowly embeds the JavaScript source:

* JsValue models the JSON values the components store in view state,
  together with JavaScript truthiness (the idiom x || d) and field access.
* FetchOutcome / Oracle model the backend: each HTTP request either rejects
  at the fetch await, resolves but fails to decode at the json await, or
  yields a decoded JSON value.  The view code is deterministic given the
  oracle, so every async function is embedded as a pure function of the
  oracle and the pre-state.
* DashState mirrors the useState hooks of Dashboard.js (first revision),
  and fetchData / fetchChartData / fetchFinancialData mirror its effects
  line by line, including the placement of try/catch/finally blocks.
* A second revision of the component (split into sub-components, with the
  completion callback driven by a useEffect depending on both the holistic
  summary and the onAllDataLoaded prop, which the part_005 App recreates on
  every one of its renders) and the revision stored as part_001
  (per-section try/catch/finally) are embedded separately where a claim
  cites them.
* React semantics used by the embedding: an effect re-runs after a render
  exactly when one of its dependencies changed (compared with Object.is),
  and a state update with an Object.is-identical value does not change the
  dependency.  Object.is is value equality on primitives and reference
  equality on objects; an object freshly produced by res.json() is never
  reference-identical to a previously stored one.
-/

/-- JSON-ish values as consumed by the dashboard components. -/
inductive JsValue where
  | jnull
  | jbool (b : Bool)
  | jnum (n : Int)
  | jstr (s : String)
  | jarr (xs : List JsValue)
  | jobj (fields : List (String × JsValue))
deriving Repr

/-- JavaScript truthiness: null, false, 0 and the empty string are falsy;
arrays and objects are always truthy (including the empty array). -/
def JsValue.truthy : JsValue → Bool
  | .jnull => false
  | .jbool b => b
  | .jnum n => n != 0
  | .jstr s => s != ""
  | .jarr _ => true
  | .jobj _ => true

/-- Property access obj.field; a missing field or a non-object reads as
undefined, which we collapse into jnull (both are falsy and the code only
ever tests them with the truthy-or idiom). -/
def JsValue.getField : JsValue → String → JsValue
  | .jobj fs, k => match fs.lookup k with | some v => v | none => .jnull
  | _, _ => .jnull

/-- The JavaScript idiom a || b. -/
def jsOr (a b : JsValue) : JsValue := if a.truthy then a else b

/-- Object.is as used by React for dependency comparison and state-update
bailout: value equality on primitives; arrays and objects coming out of
res.json() are fresh references, hence never Object.is-identical. -/
def jsIs : JsValue → JsValue → Bool
  | .jnull, .jnull => true
  | .jbool a, .jbool b => a == b
  | .jnum a, .jnum b => a == b
  | .jstr a, .jstr b => a == b
  | _, _ => false

/-- One HTTP POST request: endpoint URL and JSON body. -/
structure Request where
  endpoint : String
  body : List (String × JsValue)
deriving Repr

/-- Outcome of one backend call: the fetch promise rejects, or it resolves
but res.json() throws, or res.json() yields a decoded value. -/
inductive FetchOutcome where
  | reject
  | badJson
  | ok (v : JsValue)
deriving Repr

/-- Whether the fetch promise itself resolved (Promise.all succeeds exactly
when every member resolves, even if a later json() call throws). -/
def FetchOutcome.resolved : FetchOutcome → Bool
  | .reject => false
  | .badJson => true
  | .ok _ => true

/-- Result of awaiting res.json(): none when it throws. -/
def FetchOutcome.json : FetchOutcome → Option JsValue
  | .ok v => some v
  | _ => none

/-- The backend as an environment: a fixed outcome per request. -/
def Oracle : Type := Request → FetchOutcome

/-- POST /api/stock-history with body containing ticker and timeframe. -/
def stockHistoryReq (t tf : String) : Request :=
  ⟨"http://127.0.0.1:5000/api/stock-history", [("ticker", .jstr t), ("timeframe", .jstr tf)]⟩

/-- POST /api/esg-scores with body containing ticker. -/
def esgScoresReq (t : String) : Request :=
  ⟨"http://127.0.0.1:5000/api/esg-scores", [("ticker", .jstr t)]⟩

/-- POST /api/esg-gen-report with body containing ticker. -/
def esgGenReportReq (t : String) : Request :=
  ⟨"http://127.0.0.1:5000/api/esg-gen-report", [("ticker", .jstr t)]⟩

/-- POST /api/media-sentiment-summary with body containing ticker. -/
def mediaSentimentReq (t : String) : Request :=
  ⟨"http://127.0.0.1:5000/api/media-sentiment-summary", [("ticker", .jstr t)]⟩

/-- POST /api/holistic-summary with body containing ticker and timeframe. -/
def holisticSummaryReq (t tf : String) : Request :=
  ⟨"http://127.0.0.1:5000/api/holistic-summary", [("ticker", .jstr t), ("timeframe", .jstr tf)]⟩

/-- POST /api/stock-chart with body containing ticker and period. -/
def stockChartReq (t p : String) : Request :=
  ⟨"http://127.0.0.1:5000/api/stock-chart", [("ticker", .jstr t), ("period", .jstr p)]⟩

/-- POST /api/financial-chart with body containing ticker and period. -/
def financialChartReq (t p : String) : Request :=
  ⟨"http://127.0.0.1:5000/api/financial-chart", [("ticker", .jstr t), ("period", .jstr p)]⟩

/-- POST /api/financial-recommendation with body containing ticker and period. -/
def financialRecReq (t p : String) : Request :=
  ⟨"http://127.0.0.1:5000/api/financial-recommendation", [("ticker", .jstr t), ("period", .jstr p)]⟩

/-- The useState hooks of Dashboard.js (first revision), one field per hook. -/
structure DashState where
  holisticSummary : JsValue
  loadingHolistic : Bool
  chartData : JsValue
  chartPeriod : String
  loadingChart : Bool
  esgScores : JsValue
  esgReport : JsValue
  stockHistory : JsValue
  mediaSentiment : JsValue
  loadingScores : Bool
  loadingReport : Bool
  loadingStockHistory : Bool
  loadingMediaSentiment : Bool
  financialData : JsValue
  financialSummary : JsValue
  financialInsight : JsValue
  loadingFinancials : Bool
  showFinancialModal : Bool
  showESGModal : Bool
  showStockModal : Bool
  financialView : String
deriving Repr

/-- The initial values of the useState hooks of Dashboard.js. -/
def initialDashState : DashState :=
  { holisticSummary := .jstr ""
    loadingHolistic := false
    chartData := .jarr []
    chartPeriod := "1y"
    loadingChart := false
    esgScores := .jnull
    esgReport := .jnull
    stockHistory := .jnull
    mediaSentiment := .jnull
    loadingScores := false
    loadingReport := false
    loadingStockHistory := false
    loadingMediaSentiment := false
    financialData := .jarr []
    financialSummary := .jnull
    financialInsight := .jnull
    loadingFinancials := false
    showFinancialModal := false
    showESGModal := false
    showStockModal := false
    financialView := "1y" }

/-- The synchronous opening of fetchData (Dashboard.js lines 76 to 80): the
five loading flags are set to true.  No data slot is cleared here. -/
def fetchDataLoadingPhase (s : DashState) : DashState :=
  { s with loadingScores := true
           loadingReport := true
           loadingStockHistory := true
           loadingMediaSentiment := true
           loadingHolistic := true }

/-- The catch block of fetchData (Dashboard.js lines 130 to 136): every
section value is replaced by its error fallback; no loading flag is
touched. -/
def fetchDataCatch (s : DashState) : DashState :=
  { s with stockHistory := .jstr "Error loading stock history."
           esgScores := .jnull
           mediaSentiment := .jstr "Error loading media headlines."
           esgReport := .jstr "Error loading ESG report."
           holisticSummary := .jstr "Error loading holistic summary." }

/-- The body of fetchData in Dashboard.js (lines 75 to 139), run to
completion against the oracle: the four parallel fetches via Promise.all,
then the sequential json decodes and per-section commits in source order
(history, scores, media, report), then the holistic fetch; any rejection
or decode failure jumps to the single shared catch block.  Returns the
final state and the requests issued. -/
def fetchDataCore (t tf : String) (o : Oracle) (s0 : DashState) :
    DashState × List Request :=
  let s1 := fetchDataLoadingPhase s0
  let rH := stockHistoryReq t tf
  let rS := esgScoresReq t
  let rR := esgGenReportReq t
  let rM := mediaSentimentReq t
  let issued := [rH, rS, rR, rM]
  if (o rH).resolved && (o rS).resolved && (o rR).resolved && (o rM).resolved then
    match (o rH).json with
    | none => (fetchDataCatch s1, issued)
    | some historyData =>
      let s2 := { s1 with
        stockHistory := jsOr (historyData.getField "recommendation")
          (.jstr "No stock history available.")
        loadingStockHistory := false }
      match (o rS).json with
      | none => (fetchDataCatch s2, issued)
      | some scoresData =>
        let s3 := { s2 with
          esgScores := jsOr (scoresData.getField "esg_scores") (.jobj [])
          loadingScores := false }
        match (o rM).json with
        | none => (fetchDataCatch s3, issued)
        | some headlinesData =>
          let s4 := { s3 with
            mediaSentiment := jsOr (headlinesData.getField "summary")
              (.jstr "No media headlines available.")
            loadingMediaSentiment := false }
          match (o rR).json with
          | none => (fetchDataCatch s4, issued)
          | some reportData =>
            let s5 := { s4 with
              esgReport := jsOr (reportData.getField "report")
                (.jstr "No ESG report available.")
              loadingReport := false }
            let rHo := holisticSummaryReq t tf
            match (o rHo).json with
            | none => (fetchDataCatch s5, issued ++ [rHo])
            | some holisticData =>
              let s6 := { s5 with
                holisticSummary := jsOr (holisticData.getField "summary")
                  (.jstr "No summary available.")
                loadingHolistic := false }
              (s6, issued ++ [rHo])
  else
    (fetchDataCatch s1, issued)

/-- fetchData including its unconditional tail: after the try/catch the
completion callback onAllDataLoaded is invoked exactly once (Dashboard.js
line 138).  The third component counts callback invocations. -/
def fetchData (t tf : String) (o : Oracle) (s : DashState) :
    DashState × List Request × Nat :=
  let r := fetchDataCore t tf o s
  (r.1, r.2, 1)

/-- The useEffect wrapping fetchData (Dashboard.js lines 72 to 142): the
guard if (!ticker) return fires for the empty string, issuing nothing and
invoking no callback. -/
def mainEffect (t tf : String) (o : Oracle) (s : DashState) :
    DashState × List Request × Nat :=
  if t = "" then (s, [], 0) else fetchData t tf o s

/-- The body of fetchChartData (Dashboard.js lines 147 to 162): one fetch
against /api/stock-chart with body ticker and period; on success commit
data.prices || [], on any failure commit []; the finally clause clears
loadingChart either way. -/
def fetchChartData (t p : String) (o : Oracle) (s : DashState) :
    DashState × List Request :=
  let s1 := { s with loadingChart := true }
  let r := stockChartReq t p
  let s2 :=
    match (o r).json with
    | some data => { s1 with chartData := jsOr (data.getField "prices") (.jarr []) }
    | none => { s1 with chartData := .jarr [] }
  ({ s2 with loadingChart := false }, [r])

/-- The useEffect wrapping fetchChartData (Dashboard.js lines 144 to 165),
with its guard if (!ticker || !chartPeriod) return. -/
def chartEffect (t p : String) (o : Oracle) (s : DashState) :
    DashState × List Request :=
  if t = "" || p = "" then (s, []) else fetchChartData t p o s

/-- The body of fetchFinancialData (Dashboard.js lines 170 to 205): clears
the three financial slots, issues the financial-chart and
financial-recommendation fetches in one Promise.all with period equal to
the financialView token, decodes both, and commits; any failure falls into
the catch that stores the two error strings and the empty data array; the
finally clause clears loadingFinancials. -/
def fetchFinancialData (t fv : String) (o : Oracle) (s : DashState) :
    DashState × List Request :=
  let s1 := { s with loadingFinancials := true
                     financialData := .jarr []
                     financialInsight := .jnull
                     financialSummary := .jnull }
  let rC := financialChartReq t fv
  let rR := financialRecReq t fv
  let s2 :=
    match (o rC).json, (o rR).json with
    | some chartData, some recData =>
        { s1 with
          financialData := jsOr (chartData.getField "data") (.jarr [])
          financialSummary := jsOr (recData.getField "summary")
            (.jstr "No summary available.")
          financialInsight := jsOr (recData.getField "commentary")
            (.jstr "No commentary available.") }
    | _, _ =>
        { s1 with
          financialSummary := .jstr "Error loading financial summary."
          financialInsight := .jstr "Error loading financial insight."
          financialData := .jarr [] }
  ({ s2 with loadingFinancials := false }, [rC, rR])

/-- The useEffect wrapping fetchFinancialData (Dashboard.js lines 167 to
208), with its guard if (!ticker || !financialView) return. -/
def financialEffect (t fv : String) (o : Oracle) (s : DashState) :
    DashState × List Request :=
  if t = "" || fv = "" then (s, []) else fetchFinancialData t fv o s

/-- The effect at Dashboard.js lines 66 to 70: on a ticker or timeframe
change, reset the chart period to the timeframe default; guarded by
if (!ticker) return. -/
def defaultPeriodEffect (t tf : String) (s : DashState) : DashState :=
  if t = "" then s
  else { s with chartPeriod := if tf = "long-term" then "5y" else "1y" }

/-- The FinancialView toggle buttons (Dashboard.js lines 290 to 301):
Quarterly stores the token 1y, Annual stores the token 5y. -/
inductive FinView where
  | quarterly
  | annual
deriving Repr, DecidableEq

/-- Period token stored by each FinancialView button. -/
def FinView.token : FinView → String
  | .quarterly => "1y"
  | .annual => "5y"

/-- The four effects of Dashboard.js (first revision) that read the view
state, in source order. -/
inductive EffectId where
  | defaultPeriod
  | mainFetch
  | chart
  | financial
deriving Repr, DecidableEq

/-- The dependency arrays declared at Dashboard.js lines 70, 142, 165 and
208. -/
def effectDeps : EffectId → List String
  | .defaultPeriod => ["ticker", "timeframe"]
  | .mainFetch => ["ticker", "timeframe"]
  | .chart => ["ticker", "chartPeriod"]
  | .financial => ["ticker", "financialView"]

/-- React re-runs exactly the effects whose dependency array mentions a
changed value: the effects triggered when only the named state changed. -/
def triggeredBy (changed : String) : List EffectId :=
  [EffectId.defaultPeriod, EffectId.mainFetch, EffectId.chart, EffectId.financial].filter
    (fun e => changed ∈ effectDeps e)

/-- The view state managed by fetchDashboardData in the part_001 revision:
the four sections it owns together with their loading flags. -/
structure P1State where
  esgScores : JsValue
  esgReport : JsValue
  stockHistory : JsValue
  mediaSentiment : JsValue
  loadingScores : Bool
  loadingReport : Bool
  loadingStockHistory : Bool
  loadingMediaSentiment : Bool
deriving Repr

/-- The synchronous opening of fetchDashboardData (part_001 lines 47 to
57): the four loading flags are set to true and the four data slots are
cleared to null. -/
def p1Reset (s : P1State) : P1State :=
  { s with loadingScores := true
           loadingReport := true
           loadingStockHistory := true
           loadingMediaSentiment := true
           esgScores := .jnull
           esgReport := .jnull
           stockHistory := .jnull
           mediaSentiment := .jnull }

/-- One per-section block of fetchDashboardData: try fetch and decode and
extract field with its truthy-or fallback, catch stores the section error
string.  The fetch rejecting and the json decode throwing land in the same
per-section catch. -/
def p1Section (o : Oracle) (r : Request) (field absent err : String) : JsValue :=
  match (o r).json with
  | some v => jsOr (v.getField field) (.jstr absent)
  | none => .jstr err

/-- The body of fetchDashboardData in part_001 (lines 46 to 122): reset,
then the four sequential per-section try/catch/finally blocks in source
order (scores, report, history, media) each clearing its own loading flag
in its finally clause, then one unconditional completion callback.  The
second component counts callback invocations. -/
def fetchDashboardData (t tf : String) (o : Oracle) (s : P1State) :
    P1State × Nat :=
  let s1 := p1Reset s
  let s2 := { s1 with
    esgScores := p1Section o (esgScoresReq t) "esg_scores"
      "No ESG scores available." "Error fetching ESG scores."
    loadingScores := false }
  let s3 := { s2 with
    esgReport := p1Section o (esgGenReportReq t) "report"
      "No ESG report available." "Error fetching ESG report."
    loadingReport := false }
  let s4 := { s3 with
    stockHistory := p1Section o (stockHistoryReq t tf) "recommendation"
      "No stock history available." "Error fetching stock history."
    loadingStockHistory := false }
  let s5 := { s4 with
    mediaSentiment := p1Section o (mediaSentimentReq t) "summary"
      "No media headlines available" "Error fetching media data."
    loadingMediaSentiment := false }
  (s5, 1)

/-- The value stored by the holistic-summary effect of the split-component
revision of Dashboard.js (second revision, lines 651 to 670): the summary
field with its truthy-or fallback on success, the error string when the
fetch rejects or the decode throws. -/
def rev2NewSummary (t tf : String) (o : Oracle) : JsValue :=
  match (o (holisticSummaryReq t tf)).json with
  | some data => jsOr (data.getField "summary") (.jstr "No summary available.")
  | none => .jstr "Error loading holistic summary."

/-- The completion-useEffect condition at line 472 of the second revision,
holisticSummary !== the empty string: strict inequality, so any non-string
value and any non-empty string pass. -/
def neqEmptyStr : JsValue → Bool
  | .jstr x => x != ""
  | _ => true

/-- The composition of the split-component Dashboard revision with the
part_005 App, restricted to the machinery that drives the completion
callback.  The completion useEffect (second revision, lines 471 to 475)
declares the dependency array holisticSummary and onAllDataLoaded.  App
defines handleDashboardDone in its component body, so every App render
passes down a fresh closure; callbackGen numbers those closures, and
Object.is on two closure references is generation equality.  summaryGen
likewise numbers the committed holistic-summary values: a stored value
carried unchanged across renders keeps its reference, while a freshly
committed one is a new reference.  depGen and depSummaryGen are the
dependency snapshot against which React compares on each commit. -/
structure Rev2System where
  isLoading : Bool
  callbackGen : Nat
  holisticSummary : JsValue
  summaryGen : Nat
  depGen : Nat
  depSummaryGen : Nat
  callbackCount : Nat
deriving Repr

/-- One React commit of the composed system: the completion effect re-runs
exactly when one of its two declared dependencies changed; its body (line
472 to 474) calls onAllDataLoaded() when the stored summary is not the
empty string.  The invoked callback is handleDashboardDone of part_005,
which sets isLoading to false: when that is a change, App re-renders and
recreates the callback closure (bumping callbackGen); when isLoading is
already false React bails out and no re-render happens. -/
def rev2CommitOnce (s : Rev2System) : Rev2System :=
  if s.callbackGen = s.depGen ∧ s.summaryGen = s.depSummaryGen then s
  else
    let s1 := { s with depGen := s.callbackGen, depSummaryGen := s.summaryGen }
    if neqEmptyStr s1.holisticSummary then
      let s2 := { s1 with callbackCount := s1.callbackCount + 1 }
      if s2.isLoading then
        { s2 with isLoading := false, callbackGen := s2.callbackGen + 1 }
      else s2
    else s1

/-- Run commits until quiescence: two rounds can fire (the second caused by
the callback recreation that the first invocation provokes), after which
the dependency snapshot matches and the third round is the identity, so
fuel three reaches the fixpoint from any consistent state. -/
def rev2Settle : Nat → Rev2System → Rev2System
  | 0, s => s
  | n + 1, s => rev2Settle n (rev2CommitOnce s)

/-- A form submission reaching the composed system: handleFormSubmit
(part_005 lines 15 to 20) ignores it while loading, otherwise sets
isLoading — an App render that recreates the callback closure — after
which the effects settle. -/
def rev2Submit (s : Rev2System) : Rev2System :=
  if s.isLoading then s
  else rev2Settle 3 { s with isLoading := true, callbackGen := s.callbackGen + 1 }

/-- The holistic fetch of the current descriptor resolving: the commit of
setHolisticSummary(v) (second revision, line 662).  React bails out when
the new value is Object.is-identical to the stored one (a fresh string
equal to the stored string is identical; a fresh object never is);
otherwise the value is stored under a new reference and the effects
settle. -/
def rev2HolisticCommit (v : JsValue) (s : Rev2System) : Rev2System :=
  if jsIs v s.holisticSummary then s
  else rev2Settle 3 { s with holisticSummary := v, summaryGen := s.summaryGen + 1 }

/-- External events driving the composed system: a submission, or the
holistic fetch of the named descriptor resolving with the value that
rev2NewSummary extracts from the backend response. -/
inductive Rev2Ev where
  | submit
  | holisticResolved (t tf : String)
deriving Repr

/-- One event of the composed system. -/
def rev2Step (o : Oracle) (s : Rev2System) : Rev2Ev → Rev2System
  | .submit => rev2Submit s
  | .holisticResolved t tf => rev2HolisticCommit (rev2NewSummary t tf o) s

/-- System state after a sequence of events. -/
def rev2Run (o : Oracle) (s : Rev2System) (evs : List Rev2Ev) : Rev2System :=
  evs.foldl (rev2Step o) s

/-- The mounted, idle system: not loading, the initial empty summary, the
dependency snapshot already taken by the mount run of the effect (whose
body did nothing, the summary being empty). -/
def rev2Mounted : Rev2System :=
  { isLoading := false
    callbackGen := 0
    holisticSummary := .jstr ""
    summaryGen := 0
    depGen := 0
    depSummaryGen := 0
    callbackCount := 0 }

/-- The props and hooks of TickerInput.js: the typed symbol, the selected
timeframe, the submitted hook and the loading prop supplied by App. -/
structure TickerInputState where
  ticker : String
  timeframe : String
  submitted : Bool
  loading : Bool
deriving Repr, DecidableEq

/-- JavaScript String.prototype.trim: strip whitespace from both ends. -/
def isJsWhitespace (c : Char) : Bool := c = ' ' || c = '\t' || c = '\n' || c = '\r'

/-- Embedding of the trim call at TickerInput.js line 14. -/
def jsTrim (s : String) : String :=
  ⟨((s.data.dropWhile isJsWhitespace).reverse.dropWhile isJsWhitespace).reverse⟩

/-- Embedding of the toUpperCase call at TickerInput.js line 14. -/
def jsToUpperCase (s : String) : String := ⟨s.data.map Char.toUpper⟩

/-- handleSubmit (TickerInput.js lines 10 to 15): the guard
if (!ticker || loading || submitted) return tests the raw, untrimmed
symbol for emptiness; past the guard it sets submitted and emits the
descriptor with the trimmed, uppercased ticker and the timeframe.  Returns
the new hook state and the emitted descriptor, if any. -/
def handleSubmit (s : TickerInputState) :
    TickerInputState × Option (String × String) :=
  if s.ticker = "" || s.loading || s.submitted then (s, none)
  else ({ s with submitted := true },
        some (jsToUpperCase (jsTrim s.ticker), s.timeframe))

/-- The hooks of App (part_005): selected descriptor and the in-flight
flag. -/
structure AppState where
  selectedTicker : String
  investmentType : String
  isLoading : Bool
deriving Repr, DecidableEq

/-- handleFormSubmit (part_005 lines 15 to 20): ignore when a request is in
progress, otherwise mark loading and store the descriptor. -/
def handleFormSubmit (a : AppState) (d : String × String) : AppState :=
  if a.isLoading then a
  else { selectedTicker := d.1, investmentType := d.2, isLoading := true }

/-- handleDashboardDone (part_005 lines 23 to 25): the only place App ever
clears isLoading. -/
def handleDashboardDone (a : AppState) : AppState := { a with isLoading := false }

/-- Events observable by App: a form submission or the dashboard completion
callback. -/
inductive AppEv where
  | submit (d : String × String)
  | dashboardDone
deriving Repr, DecidableEq

/-- App state transition per event. -/
def appStep (a : AppState) : AppEv → AppState
  | .submit d => handleFormSubmit a d
  | .dashboardDone => handleDashboardDone a

/-- App state after a sequence of events. -/
def appRun (a : AppState) (evs : List AppEv) : AppState := evs.foldl appStep a

/-- Projection of the system state used for the overlapping-descriptor
analysis: the currently active descriptor held by App together with the
stock-history section slots of Dashboard.js.  One section suffices to
study whether a stale response can overwrite state of the current
descriptor. -/
structure OverlapState where
  activeTicker : String
  activeTimeframe : String
  stockHistory : JsValue
  loadingStockHistory : Bool
deriving Repr

/-- Scheduler events for two overlapping orchestration cycles.  submit is
a form submission reaching App (it replaces the active descriptor and the
descriptor-change effect synchronously sets the loading flag, Dashboard.js
line 78).  historyResponse is the event-loop resumption of the fetchData
instance whose closure captured the given descriptor, executing its
commit. -/
inductive OverlapEv where
  | submit (t tf : String)
  | historyResponse (t tf : String)
deriving Repr

/-- One scheduler step.  The commit in historyResponse reproduces
Dashboard.js lines 106 to 108: the response is decoded and stored with
setStockHistory without comparing the originating descriptor, captured in
the closure, against the currently active one — there is no fencing
check.  The JavaScript event loop may deliver the resumption of an older
cycle after a newer submission, so any event order is a possible
execution. -/
def overlapStep (o : Oracle) (s : OverlapState) : OverlapEv → OverlapState
  | .submit t tf =>
      { s with activeTicker := t, activeTimeframe := tf, loadingStockHistory := true }
  | .historyResponse t tf =>
      match (o (stockHistoryReq t tf)).json with
      | some historyData =>
          { s with
            stockHistory := jsOr (historyData.getField "recommendation")
              (.jstr "No stock history available.")
            loadingStockHistory := false }
      | none => s

/-- System state after a sequence of scheduler events. -/
def overlapRun (o : Oracle) (s : OverlapState) (evs : List OverlapEv) : OverlapState :=
  evs.foldl (overlapStep o) s

/-- A backend in which the stock-history endpoint answers each ticker with
a recommendation text naming that ticker, so the two descriptors of the
overlap scenario receive distinguishable responses. -/
def overlapOracle : Oracle := fun r =>
  match r.body.lookup "ticker" with
  | some (.jstr t) => .ok (.jobj [("recommendation", .jstr (t ++ " recommendation"))])
  | _ => .reject

/-- The props of the ESGScore component (ESGScore.js), as far as the modal
contract is concerned. -/
structure ESGScoreProps where
  ticker : String
  esgScores : JsValue
  esgScoresLoaded : Bool
  esgReport : JsValue
  loadingScores : Bool
  loadingReport : Bool
  showESGModal : Bool
deriving Repr

/-- The disabled attribute of the info button that opens the ESG report
modal (ESGScore.js lines 53 to 59): disabled equals
loadingReport || !esgReport. -/
def esgInfoDisabled (p : ESGScoreProps) : Bool :=
  p.loadingReport || !p.esgReport.truthy

/-- The open action of the ESG modal: the onClick handler only sets the
visibility hook to true. -/
def esgOpenModal (p : ESGScoreProps) : ESGScoreProps :=
  { p with showESGModal := true }

/-- The close action of the ESG modal (ESGScore.js lines 97 and 105): both
onRequestClose and the Close button only set the visibility hook to
false. -/
def esgCloseModal (p : ESGScoreProps) : ESGScoreProps :=
  { p with showESGModal := false }

/-- C1: the claim states that a response belonging to a stale, superseded
descriptor never overwrites section state of the currently active
descriptor.  The code has no fencing: in the execution in which MSFT is
submitted, then GOOG is submitted while the MSFT fetch is still in
flight, and the MSFT stock-history response is delivered after the GOOG
one, the commit of Dashboard.js lines 106 to 108 stores the MSFT
recommendation although GOOG is the active descriptor — the final
displayed section state belongs to the superseded descriptor. -/
theorem stale_history_response_overwrites_active_descriptor :
    (overlapRun overlapOracle ⟨"", "short-term", .jnull, false⟩
      [.submit "MSFT" "short-term", .submit "GOOG" "short-term",
       .historyResponse "GOOG" "short-term",
       .historyResponse "MSFT" "short-term"]).activeTicker = "GOOG" ∧
    (overlapRun overlapOracle ⟨"", "short-term", .jnull, false⟩
      [.submit "MSFT" "short-term", .submit "GOOG" "short-term",
       .historyResponse "GOOG" "short-term",
       .historyResponse "MSFT" "short-term"]).stockHistory
      = .jstr "MSFT recommendation" ∧
    ("MSFT recommendation" : String) ≠ "GOOG recommendation" :=
  ⟨rfl, rfl, by decide⟩

/-- A backend whose holistic-summary endpoint always answers with the same
summary text. -/
def steadyOracle : Oracle := fun _ =>
  .ok (.jobj [("summary", .jstr "Steady growth expected.")])

/-- C2 counterexample: the claim states that onAllDataLoaded fires exactly
once per descriptor.  In the split-component revision composed with the
part_005 App, the completion useEffect (second revision, lines 471 to
475) also depends on the onAllDataLoaded prop, which App recreates on
every render.  Tracing two descriptors whose holistic summaries are the
same text: the first descriptor receives two invocations (the first
invocation clears isLoading, App re-renders, and the recreated callback
re-triggers the effect); the second descriptor receives its two
invocations prematurely at submission time, while the stale summary is
still the stored one — re-enabling the form before any of its data
arrives — and no invocation at all when its own summary commit bails out
on the identical value. -/
theorem completion_callback_not_once_per_descriptor :
    (rev2Run steadyOracle rev2Mounted
      [.submit, .holisticResolved "MSFT" "short-term"]).callbackCount = 2 ∧
    ((rev2Run steadyOracle rev2Mounted
      [.submit, .holisticResolved "MSFT" "short-term", .submit]).callbackCount = 4 ∧
     (rev2Run steadyOracle rev2Mounted
      [.submit, .holisticResolved "MSFT" "short-term", .submit]).isLoading = false) ∧
    (rev2Run steadyOracle rev2Mounted
      [.submit, .holisticResolved "MSFT" "short-term", .submit,
       .holisticResolved "GOOG" "short-term"]).callbackCount = 4 :=
  ⟨rfl, ⟨rfl, rfl⟩, rfl⟩

/-- One commit never decreases the number of callback invocations. -/
theorem rev2CommitOnce_count_le (s : Rev2System) :
    s.callbackCount ≤ (rev2CommitOnce s).callbackCount := by
  unfold rev2CommitOnce
  split
  · exact Nat.le_refl _
  · dsimp only
    split
    · split
      · exact Nat.le_succ _
      · exact Nat.le_succ _
    · exact Nat.le_refl _

/-- Iterated commits never decrease the number of callback invocations. -/
theorem rev2Settle_count_le (n : Nat) (s : Rev2System) :
    s.callbackCount ≤ (rev2Settle n s).callbackCount := by
  induction n generalizing s with
  | zero => exact Nat.le_refl _
  | succ n ih => exact le_trans (rev2CommitOnce_count_le s) (ih (rev2CommitOnce s))

/-- C2 amended: in the fetchData orchestrator of Dashboard.js the
completion callback is invoked exactly once per run of the effect,
whatever the fetch outcomes (it sits after the shared try/catch).  In the
split-component revision composed with the part_005 App the callback is
not once per descriptor: it never fires while the stored holistic summary
is still the initial empty string; it fires at least once whenever a
changed, non-empty summary — in particular the failure fallback string —
is committed; and a submission made while a non-empty summary from the
previous descriptor is stored immediately fires it twice more,
re-enabling the form before any data of the new descriptor has
arrived. -/
theorem completion_callback_policy
    (t tf : String) (o : Oracle) (ds : DashState) (v : JsValue) (s : Rev2System) :
    (fetchData t tf o ds).2.2 = 1 ∧
    (neqEmptyStr s.holisticSummary = false →
      (rev2CommitOnce s).callbackCount = s.callbackCount) ∧
    (s.depGen = s.callbackGen → s.depSummaryGen = s.summaryGen →
      jsIs v s.holisticSummary = false → neqEmptyStr v = true →
      s.callbackCount < (rev2HolisticCommit v s).callbackCount) ∧
    (s.depGen = s.callbackGen → s.depSummaryGen = s.summaryGen →
      s.isLoading = false → neqEmptyStr s.holisticSummary = true →
      (rev2Submit s).callbackCount = s.callbackCount + 2 ∧
      (rev2Submit s).isLoading = false) := by
  refine ⟨rfl, ?_, ?_, ?_⟩
  · intro h
    unfold rev2CommitOnce
    split
    · rfl
    · simp [h]
  · intro h1 h2 h3 h4
    have hfirst : (rev2CommitOnce { s with holisticSummary := v, summaryGen := s.summaryGen + 1 }).callbackCount = s.callbackCount + 1 := by
      unfold rev2CommitOnce
      simp [h1, h2, h4]
      split <;> rfl
    have h5 : rev2HolisticCommit v s = rev2Settle 3 { s with holisticSummary := v, summaryGen := s.summaryGen + 1 } := by
      unfold rev2HolisticCommit
      simp [h3]
    have h6 : rev2Settle 3 { s with holisticSummary := v, summaryGen := s.summaryGen + 1 } = rev2Settle 2 (rev2CommitOnce { s with holisticSummary := v, summaryGen := s.summaryGen + 1 }) := rfl
    have h7 := rev2Settle_count_le 2 (rev2CommitOnce { s with holisticSummary := v, summaryGen := s.summaryGen + 1 })
    rw [hfirst] at h7
    rw [h5, h6]
    omega
  · intro h1 h2 h3 h4
    have h5 : rev2Submit s = rev2Settle 3 { s with isLoading := true, callbackGen := s.callbackGen + 1 } := by
      unfold rev2Submit
      simp [h3]
    have h6 : rev2Settle 3 { s with isLoading := true, callbackGen := s.callbackGen + 1 } = rev2CommitOnce (rev2CommitOnce (rev2CommitOnce { s with isLoading := true, callbackGen := s.callbackGen + 1 })) := rfl
    have ha : rev2CommitOnce { s with isLoading := true, callbackGen := s.callbackGen + 1 } = { isLoading := false, callbackGen := s.callbackGen + 1 + 1, holisticSummary := s.holisticSummary, summaryGen := s.summaryGen, depGen := s.callbackGen + 1, depSummaryGen := s.summaryGen, callbackCount := s.callbackCount + 1 } := by
      unfold rev2CommitOnce
      simp [h1, h2, h4]
    have hb : rev2CommitOnce { isLoading := false, callbackGen := s.callbackGen + 1 + 1, holisticSummary := s.holisticSummary, summaryGen := s.summaryGen, depGen := s.callbackGen + 1, depSummaryGen := s.summaryGen, callbackCount := s.callbackCount + 1 } = { isLoading := false, callbackGen := s.callbackGen + 1 + 1, holisticSummary := s.holisticSummary, summaryGen := s.summaryGen, depGen := s.callbackGen + 1 + 1, depSummaryGen := s.summaryGen, callbackCount := s.callbackCount + 1 + 1 } := by
      unfold rev2CommitOnce
      simp [h4]
    have hc : rev2CommitOnce { isLoading := false, callbackGen := s.callbackGen + 1 + 1, holisticSummary := s.holisticSummary, summaryGen := s.summaryGen, depGen := s.callbackGen + 1 + 1, depSummaryGen := s.summaryGen, callbackCount := s.callbackCount + 1 + 1 } = { isLoading := false, callbackGen := s.callbackGen + 1 + 1, holisticSummary := s.holisticSummary, summaryGen := s.summaryGen, depGen := s.callbackGen + 1 + 1, depSummaryGen := s.summaryGen, callbackCount := s.callbackCount + 1 + 1 } := by
      unfold rev2CommitOnce
      simp
    rw [h5, h6, ha, hb, hc]
    refine ⟨?_, rfl⟩
    show s.callbackCount + 1 + 1 = s.callbackCount + 2
    omega

/-- Witness for completion_callback_policy at concrete inputs: the mounted
idle state with the empty summary fires nothing, committing the failure
fallback from that state fires, and a submission from a settled state
holding a stale non-empty summary fires twice and re-enables the form. -/
theorem completion_callback_policy_witness :
    (fetchData "AAPL" "short-term" steadyOracle initialDashState).2.2 = 1 ∧
    (rev2CommitOnce rev2Mounted).callbackCount = rev2Mounted.callbackCount ∧
    rev2Mounted.callbackCount
      < (rev2HolisticCommit (.jstr "Error loading holistic summary.")
          rev2Mounted).callbackCount ∧
    ((rev2Submit ⟨false, 2, .jstr "Steady growth expected.", 1, 2, 1, 2⟩).callbackCount
        = (⟨false, 2, .jstr "Steady growth expected.", 1, 2, 1, 2⟩ :
            Rev2System).callbackCount + 2 ∧
     (rev2Submit ⟨false, 2, .jstr "Steady growth expected.", 1, 2, 1, 2⟩).isLoading
        = false) :=
  ⟨(completion_callback_policy "AAPL" "short-term" steadyOracle initialDashState
      .jnull rev2Mounted).1,
   (completion_callback_policy "AAPL" "short-term" steadyOracle initialDashState
      .jnull rev2Mounted).2.1 (by decide),
   (completion_callback_policy "AAPL" "short-term" steadyOracle initialDashState
      (.jstr "Error loading holistic summary.") rev2Mounted).2.2.1
     rfl rfl (by decide) (by decide),
   (completion_callback_policy "AAPL" "short-term" steadyOracle initialDashState
      .jnull ⟨false, 2, .jstr "Steady growth expected.", 1, 2, 1, 2⟩).2.2.2
     rfl rfl rfl (by decide)⟩

/-- A backend in which the esg-scores fetch rejects and every other call
resolves with an empty JSON object. -/
def scoresRejectOracle : Oracle := fun r =>
  if r.endpoint = "http://127.0.0.1:5000/api/esg-scores" then .reject
  else .ok (.jobj [])

/-- C3: the claim states that once the orchestration cycle completes every
loading flag is false regardless of which fetches failed.  In fetchData of
Dashboard.js the catch block (lines 130 to 136) stores the error
fallbacks but never clears a loading flag, so when the esg-scores fetch
rejects, the cycle completes (the completion callback fires) with all five
loading flags still true. -/
theorem fetchData_failure_leaves_loading_flags_true :
    ((fetchData "AAPL" "short-term" scoresRejectOracle initialDashState).1.loadingScores
        = true) ∧
    ((fetchData "AAPL" "short-term" scoresRejectOracle initialDashState).1.loadingReport
        = true) ∧
    ((fetchData "AAPL" "short-term" scoresRejectOracle initialDashState).1.loadingStockHistory
        = true) ∧
    ((fetchData "AAPL" "short-term" scoresRejectOracle initialDashState).1.loadingMediaSentiment
        = true) ∧
    ((fetchData "AAPL" "short-term" scoresRejectOracle initialDashState).1.loadingHolistic
        = true) ∧
    ((fetchData "AAPL" "short-term" scoresRejectOracle initialDashState).2.2 = 1) :=
  ⟨rfl, rfl, rfl, rfl, rfl, rfl⟩

/-- C4 counterexample: the claim states that a whitespace-only symbol is
rejected and nothing is emitted.  The guard at TickerInput.js line 12
tests the untrimmed symbol, so a single-space symbol with no request in
flight passes the guard and a descriptor with the empty ticker is
emitted. -/
theorem handleSubmit_emits_for_whitespace_only_input :
    handleSubmit ⟨" ", "short-term", false, false⟩ =
      (⟨" ", "short-term", true, false⟩, some ("", "short-term")) := by decide

/-- C4 amended: the submission is rejected (and nothing emitted) exactly
when the untrimmed symbol is the empty string or a request is in flight;
past the guard the emitted ticker is the trimmed, uppercased symbol —
which is the empty string for a whitespace-only input — and submitted is
set, disabling the inputs. -/
theorem handleSubmit_guard_and_normalization (s : TickerInputState) :
    (s.ticker = "" ∨ s.loading = true ∨ s.submitted = true →
      handleSubmit s = (s, none)) ∧
    (s.ticker ≠ "" → s.loading = false → s.submitted = false →
      handleSubmit s =
        ({ s with submitted := true },
         some (jsToUpperCase (jsTrim s.ticker), s.timeframe))) := by
  constructor
  · intro h
    rcases h with h | h | h <;> simp [handleSubmit, h]
  · intro h1 h2 h3
    simp [handleSubmit, h1, h2, h3]

/-- Witness for handleSubmit_guard_and_normalization at concrete inputs:
an in-flight submission is swallowed, and a padded lowercase symbol is
emitted trimmed and uppercased. -/
theorem handleSubmit_guard_and_normalization_witness :
    handleSubmit ⟨"aapl", "short-term", false, true⟩ =
      (⟨"aapl", "short-term", false, true⟩, none) ∧
    handleSubmit ⟨" aapl ", "long-term", false, false⟩ =
      (⟨" aapl ", "long-term", true, false⟩, some ("AAPL", "long-term")) := by
  constructor
  · exact (handleSubmit_guard_and_normalization
      ⟨"aapl", "short-term", false, true⟩).1 (Or.inr (Or.inl rfl))
  · have h := (handleSubmit_guard_and_normalization
      ⟨" aapl ", "long-term", false, false⟩).2 (by decide) rfl rfl
    simpa using h

/-- C5 counterexample: the claim states that on a new descriptor every
section value is cleared before any response commits.  The synchronous
phase of fetchData before its first suspension point is exactly
fetchDataLoadingPhase (fetchDataCore factors through it): it raises the
loading flags but leaves the previous stock-history commentary and ESG
scores in place. -/
theorem fetchData_keeps_stale_section_data :
    (fetchDataLoadingPhase { initialDashState with
        stockHistory := .jstr "Old AAPL commentary"
        esgScores := .jobj [("Total ESG Risk Score", .jnum 20)] }).stockHistory
      = .jstr "Old AAPL commentary" ∧
    (fetchDataLoadingPhase { initialDashState with
        stockHistory := .jstr "Old AAPL commentary"
        esgScores := .jobj [("Total ESG Risk Score", .jnum 20)] }).esgScores
      = .jobj [("Total ESG Risk Score", .jnum 20)] :=
  ⟨rfl, rfl⟩

/-- C5 amended: on a new descriptor, before any response commits, every
section loading flag owned by the main effect is set to true; the part_001
revision additionally clears its four section values to null, while the
fetchData revision of Dashboard.js leaves all prior section values in
place, relying on the raised loading flags to hide them. -/
theorem descriptor_reset_policy (s : DashState) (s1 : P1State) :
    ((fetchDataLoadingPhase s).loadingScores = true ∧
     (fetchDataLoadingPhase s).loadingReport = true ∧
     (fetchDataLoadingPhase s).loadingStockHistory = true ∧
     (fetchDataLoadingPhase s).loadingMediaSentiment = true ∧
     (fetchDataLoadingPhase s).loadingHolistic = true ∧
     (fetchDataLoadingPhase s).stockHistory = s.stockHistory ∧
     (fetchDataLoadingPhase s).esgScores = s.esgScores ∧
     (fetchDataLoadingPhase s).esgReport = s.esgReport ∧
     (fetchDataLoadingPhase s).mediaSentiment = s.mediaSentiment ∧
     (fetchDataLoadingPhase s).holisticSummary = s.holisticSummary) ∧
    ((p1Reset s1).loadingScores = true ∧
     (p1Reset s1).loadingReport = true ∧
     (p1Reset s1).loadingStockHistory = true ∧
     (p1Reset s1).loadingMediaSentiment = true ∧
     (p1Reset s1).esgScores = .jnull ∧
     (p1Reset s1).esgReport = .jnull ∧
     (p1Reset s1).stockHistory = .jnull ∧
     (p1Reset s1).mediaSentiment = .jnull) :=
  ⟨⟨rfl, rfl, rfl, rfl, rfl, rfl, rfl, rfl, rfl, rfl⟩,
   ⟨rfl, rfl, rfl, rfl, rfl, rfl, rfl, rfl⟩⟩

/-- A backend that answers every call with an empty JSON object. -/
def emptyObjOracle : Oracle := fun _ => .ok (.jobj [])

/-- What a ChartPeriod change must and must not do, for a given ticker,
period, backend and pre-state: exactly the stock-chart request is issued,
and every piece of state other than the chart data and the chart loading
flag is unchanged. -/
def ChartChangeContract (t p : String) (o : Oracle) (s : DashState) : Prop :=
  (chartEffect t p o s).2 = [stockChartReq t p] ∧
  (chartEffect t p o s).1.holisticSummary = s.holisticSummary ∧
  (chartEffect t p o s).1.loadingHolistic = s.loadingHolistic ∧
  (chartEffect t p o s).1.chartPeriod = s.chartPeriod ∧
  (chartEffect t p o s).1.esgScores = s.esgScores ∧
  (chartEffect t p o s).1.esgReport = s.esgReport ∧
  (chartEffect t p o s).1.stockHistory = s.stockHistory ∧
  (chartEffect t p o s).1.mediaSentiment = s.mediaSentiment ∧
  (chartEffect t p o s).1.loadingScores = s.loadingScores ∧
  (chartEffect t p o s).1.loadingReport = s.loadingReport ∧
  (chartEffect t p o s).1.loadingStockHistory = s.loadingStockHistory ∧
  (chartEffect t p o s).1.loadingMediaSentiment = s.loadingMediaSentiment ∧
  (chartEffect t p o s).1.financialData = s.financialData ∧
  (chartEffect t p o s).1.financialSummary = s.financialSummary ∧
  (chartEffect t p o s).1.financialInsight = s.financialInsight ∧
  (chartEffect t p o s).1.loadingFinancials = s.loadingFinancials ∧
  (chartEffect t p o s).1.showFinancialModal = s.showFinancialModal ∧
  (chartEffect t p o s).1.showESGModal = s.showESGModal ∧
  (chartEffect t p o s).1.showStockModal = s.showStockModal ∧
  (chartEffect t p o s).1.financialView = s.financialView ∧
  (chartEffect t p o s).1.loadingChart = false

/-- C6: a ChartPeriod change (ticker and timeframe fixed) re-runs only the
effect whose dependency array mentions chartPeriod, which issues exactly
the one stock-chart fetch with body ticker and period and modifies only
the chart data and chart loading flag; ESG, media, holistic, stock-history
and financial state are untouched. -/
theorem chartPeriod_change_refetches_only_chart
    (t p : String) (o : Oracle) (s : DashState)
    (ht : t ≠ "") (hp : p ≠ "") :
    triggeredBy "chartPeriod" = [EffectId.chart] ∧ ChartChangeContract t p o s := by
  refine ⟨by decide, ?_⟩
  have hg : chartEffect t p o s = fetchChartData t p o s := by
    simp [chartEffect, ht, hp]
  unfold ChartChangeContract
  rw [hg]
  cases hj : (o (stockChartReq t p)).json <;>
    simp [fetchChartData, hj]

/-- Witness for chartPeriod_change_refetches_only_chart at a concrete
ticker, period, backend and state. -/
theorem chartPeriod_change_refetches_only_chart_witness :
    ("AAPL" : String) ≠ "" ∧ ("5d" : String) ≠ "" ∧
    (triggeredBy "chartPeriod" = [EffectId.chart] ∧
     ChartChangeContract "AAPL" "5d" emptyObjOracle initialDashState) :=
  ⟨by decide, by decide,
   chartPeriod_change_refetches_only_chart "AAPL" "5d" emptyObjOracle
     initialDashState (by decide) (by decide)⟩

/-- What a FinancialView change must and must not do, for a given ticker,
view token, backend and pre-state: exactly the financial-chart and
financial-recommendation requests are issued, both carrying the view
token as period, and every piece of state other than the financial data,
financial summary, financial insight and financial loading flag is
unchanged. -/
def FinViewChangeContract (t fv : String) (o : Oracle) (s : DashState) : Prop :=
  (financialEffect t fv o s).2 = [financialChartReq t fv, financialRecReq t fv] ∧
  (financialEffect t fv o s).1.holisticSummary = s.holisticSummary ∧
  (financialEffect t fv o s).1.loadingHolistic = s.loadingHolistic ∧
  (financialEffect t fv o s).1.chartData = s.chartData ∧
  (financialEffect t fv o s).1.chartPeriod = s.chartPeriod ∧
  (financialEffect t fv o s).1.loadingChart = s.loadingChart ∧
  (financialEffect t fv o s).1.esgScores = s.esgScores ∧
  (financialEffect t fv o s).1.esgReport = s.esgReport ∧
  (financialEffect t fv o s).1.stockHistory = s.stockHistory ∧
  (financialEffect t fv o s).1.mediaSentiment = s.mediaSentiment ∧
  (financialEffect t fv o s).1.loadingScores = s.loadingScores ∧
  (financialEffect t fv o s).1.loadingReport = s.loadingReport ∧
  (financialEffect t fv o s).1.loadingStockHistory = s.loadingStockHistory ∧
  (financialEffect t fv o s).1.loadingMediaSentiment = s.loadingMediaSentiment ∧
  (financialEffect t fv o s).1.showFinancialModal = s.showFinancialModal ∧
  (financialEffect t fv o s).1.showESGModal = s.showESGModal ∧
  (financialEffect t fv o s).1.showStockModal = s.showStockModal ∧
  (financialEffect t fv o s).1.financialView = s.financialView ∧
  (financialEffect t fv o s).1.loadingFinancials = false

/-- C7: a FinancialView change (ticker fixed) re-runs only the effect
whose dependency array mentions financialView, which issues exactly the
financial-chart and financial-recommendation fetches, each with body
ticker and period where the period is the view token — 1y for the
Quarterly button, 5y for the Annual button — and modifies only the
financial data, summary, insight and loading flag. -/
theorem financialView_change_refetches_only_financials
    (t fv : String) (o : Oracle) (s : DashState)
    (ht : t ≠ "") (hfv : fv ≠ "") :
    triggeredBy "financialView" = [EffectId.financial] ∧
    FinView.quarterly.token = "1y" ∧ FinView.annual.token = "5y" ∧
    FinViewChangeContract t fv o s := by
  refine ⟨by decide, rfl, rfl, ?_⟩
  have hg : financialEffect t fv o s = fetchFinancialData t fv o s := by
    simp [financialEffect, ht, hfv]
  unfold FinViewChangeContract
  rw [hg]
  cases hc : (o (financialChartReq t fv)).json <;>
    cases hr : (o (financialRecReq t fv)).json <;>
      simp [fetchFinancialData, hc, hr]

/-- Witness for financialView_change_refetches_only_financials at a
concrete ticker, view token, backend and state. -/
theorem financialView_change_refetches_only_financials_witness :
    ("AAPL" : String) ≠ "" ∧ FinView.annual.token ≠ "" ∧
    (triggeredBy "financialView" = [EffectId.financial] ∧
     FinView.quarterly.token = "1y" ∧ FinView.annual.token = "5y" ∧
     FinViewChangeContract "AAPL" (FinView.annual.token) emptyObjOracle
       initialDashState) :=
  ⟨by decide, by decide,
   financialView_change_refetches_only_financials "AAPL" FinView.annual.token
     emptyObjOracle initialDashState (by decide) (by decide)⟩

/-- A backend in which the esg-scores response body fails to decode, the
stock-history call succeeds with a truthy recommendation, and every other
call resolves with an empty JSON object. -/
def scoresBadJsonOracle : Oracle := fun r =>
  if r.endpoint = "http://127.0.0.1:5000/api/esg-scores" then .badJson
  else if r.endpoint = "http://127.0.0.1:5000/api/stock-history" then
    .ok (.jobj [("recommendation", .jstr "Strong buy history.")])
  else .ok (.jobj [])

/-- C8 counterexample: the claim states that a fetch failure is converted
into a section-local fallback and never propagates past the section
boundary.  In fetchData of Dashboard.js all sections share one
orchestrator-level catch: when the esg-scores body fails to decode, the
stock-history section — whose own call succeeded with a present, truthy
recommendation field — ends up showing the stock-history error fallback
instead of its committed value. -/
theorem scores_failure_clobbers_history_section :
    (scoresBadJsonOracle (stockHistoryReq "AAPL" "short-term")).json
      = some (.jobj [("recommendation", .jstr "Strong buy history.")]) ∧
    (JsValue.jobj [("recommendation", .jstr "Strong buy history.")]).getField
       "recommendation" = .jstr "Strong buy history." ∧
    (JsValue.jstr "Strong buy history.").truthy = true ∧
    (fetchData "AAPL" "short-term" scoresBadJsonOracle
        initialDashState).1.stockHistory
      = .jstr "Error loading stock history." ∧
    ("Error loading stock history." : String) ≠ "Strong buy history." :=
  ⟨rfl, rfl, rfl, rfl, by decide⟩

/-- Per-section error containment as implemented by the part_001 revision:
each section value is the named field with its truthy-or fallback when its
own call decodes, its own error string when its own call fails — in both
cases independent of every other section — all loading flags end false and
the completion callback fires once. -/
def P1SectionContract (t tf : String) (o : Oracle) (s : P1State) : Prop :=
  ((o (esgScoresReq t)).json = none →
    (fetchDashboardData t tf o s).1.esgScores
      = .jstr "Error fetching ESG scores.") ∧
  (∀ v, (o (esgScoresReq t)).json = some v →
    (fetchDashboardData t tf o s).1.esgScores
      = jsOr (v.getField "esg_scores") (.jstr "No ESG scores available.")) ∧
  ((o (esgGenReportReq t)).json = none →
    (fetchDashboardData t tf o s).1.esgReport
      = .jstr "Error fetching ESG report.") ∧
  (∀ v, (o (esgGenReportReq t)).json = some v →
    (fetchDashboardData t tf o s).1.esgReport
      = jsOr (v.getField "report") (.jstr "No ESG report available.")) ∧
  ((o (stockHistoryReq t tf)).json = none →
    (fetchDashboardData t tf o s).1.stockHistory
      = .jstr "Error fetching stock history.") ∧
  (∀ v, (o (stockHistoryReq t tf)).json = some v →
    (fetchDashboardData t tf o s).1.stockHistory
      = jsOr (v.getField "recommendation") (.jstr "No stock history available.")) ∧
  ((o (mediaSentimentReq t)).json = none →
    (fetchDashboardData t tf o s).1.mediaSentiment
      = .jstr "Error fetching media data.") ∧
  (∀ v, (o (mediaSentimentReq t)).json = some v →
    (fetchDashboardData t tf o s).1.mediaSentiment
      = jsOr (v.getField "summary") (.jstr "No media headlines available")) ∧
  (fetchDashboardData t tf o s).1.loadingScores = false ∧
  (fetchDashboardData t tf o s).1.loadingReport = false ∧
  (fetchDashboardData t tf o s).1.loadingStockHistory = false ∧
  (fetchDashboardData t tf o s).1.loadingMediaSentiment = false ∧
  (fetchDashboardData t tf o s).2 = 1

/-- C8 amended: in the part_001 revision every section fetch commits the
named field when present and truthy and the documented fallback otherwise,
a failure of a call yields that section's own error string without
affecting any other section, every loading flag is cleared and the
completion signal still fires; in the fetchData revision of Dashboard.js
the failure handling is a single orchestrator-level catch that replaces
every section value, including ones whose calls succeeded. -/
theorem p1_sections_fail_locally (t tf : String) (o : Oracle) (s : P1State) :
    P1SectionContract t tf o s := by
  unfold P1SectionContract
  refine ⟨fun h => ?_, fun v h => ?_, fun h => ?_, fun v h => ?_,
          fun h => ?_, fun v h => ?_, fun h => ?_, fun v h => ?_,
          rfl, rfl, rfl, rfl, rfl⟩ <;>
    simp [fetchDashboardData, p1Section, h]

/-- A backend in which the media-sentiment call rejects and the esg-scores
call succeeds, used to witness p1_sections_fail_locally. -/
def mixedOracle : Oracle := fun r =>
  if r.endpoint = "http://127.0.0.1:5000/api/media-sentiment-summary" then .reject
  else if r.endpoint = "http://127.0.0.1:5000/api/esg-scores" then
    .ok (.jobj [("esg_scores", .jobj [("Total ESG Risk Score", .jnum 17)])])
  else .ok (.jobj [])

/-- Witness for p1_sections_fail_locally: with mixedOracle the media
section alone shows its error string while the ESG scores commit
normally. -/
theorem p1_sections_fail_locally_witness :
    (fetchDashboardData "TSLA" "long-term" mixedOracle
        ⟨.jnull, .jnull, .jnull, .jnull, false, false, false, false⟩).1.mediaSentiment
      = .jstr "Error fetching media data." ∧
    (fetchDashboardData "TSLA" "long-term" mixedOracle
        ⟨.jnull, .jnull, .jnull, .jnull, false, false, false, false⟩).1.esgScores
      = jsOr ((JsValue.jobj [("esg_scores",
            .jobj [("Total ESG Risk Score", .jnum 17)])]).getField "esg_scores")
          (.jstr "No ESG scores available.") :=
  ⟨(p1_sections_fail_locally "TSLA" "long-term" mixedOracle
      ⟨.jnull, .jnull, .jnull, .jnull, false, false, false, false⟩).2.2.2.2.2.2.1 rfl,
   (p1_sections_fail_locally "TSLA" "long-term" mixedOracle
      ⟨.jnull, .jnull, .jnull, .jnull, false, false, false, false⟩).2.1 _ rfl⟩

/-- C9: the info button that opens the ESG report modal is disabled
whenever the report is loading or the report value is null (more
generally, the modal can open only when loading is over and the report is
truthy, hence non-null), and closing the modal only flips the visibility
flag: the report, the scores and every other prop survive unchanged, so
reopening shows the same content. -/
theorem esg_modal_gating_and_close_frame (p : ESGScoreProps) :
    (p.loadingReport = true → esgInfoDisabled p = true) ∧
    (p.esgReport = .jnull → esgInfoDisabled p = true) ∧
    (esgInfoDisabled p = false →
      p.loadingReport = false ∧ p.esgReport.truthy = true) ∧
    (esgOpenModal p).showESGModal = true ∧
    (esgCloseModal p).showESGModal = false ∧
    (esgCloseModal p).esgReport = p.esgReport ∧
    (esgCloseModal p).esgScores = p.esgScores ∧
    (esgCloseModal p).esgScoresLoaded = p.esgScoresLoaded ∧
    (esgCloseModal p).loadingScores = p.loadingScores ∧
    (esgCloseModal p).loadingReport = p.loadingReport ∧
    (esgCloseModal p).ticker = p.ticker := by
  refine ⟨?_, ?_, ?_, rfl, rfl, rfl, rfl, rfl, rfl, rfl, rfl⟩
  · intro h; simp [esgInfoDisabled, h]
  · intro h; simp [esgInfoDisabled, h, JsValue.truthy]
  · intro h
    simp only [esgInfoDisabled, Bool.or_eq_false_iff, Bool.not_eq_false'] at h
    exact h

/-- Witness for esg_modal_gating_and_close_frame at concrete props: the
button is disabled while loading and while the report is null, and
closing keeps the loaded report. -/
theorem esg_modal_gating_and_close_frame_witness :
    esgInfoDisabled ⟨"AAPL", .jnull, false, .jnull, false, true, false⟩ = true ∧
    esgInfoDisabled ⟨"AAPL", .jnull, false, .jnull, false, false, false⟩ = true ∧
    (esgCloseModal ⟨"AAPL", .jnull, true, .jstr "ESG report text",
        false, false, true⟩).esgReport = .jstr "ESG report text" :=
  ⟨(esg_modal_gating_and_close_frame
      ⟨"AAPL", .jnull, false, .jnull, false, true, false⟩).1 rfl,
   (esg_modal_gating_and_close_frame
      ⟨"AAPL", .jnull, false, .jnull, false, false, false⟩).2.1 rfl,
   (esg_modal_gating_and_close_frame
      ⟨"AAPL", .jnull, true, .jstr "ESG report text",
        false, false, true⟩).2.2.2.2.2.1⟩

/-- C10: when the descriptor handed to the Dashboard carries the empty
ticker — which handleSubmit can emit for a whitespace-only input — every
guarded effect returns before fetching: no request is issued, no section
or loading state changes, and the completion callback is never invoked;
on the App side a submission sets isLoading, and since only the
dashboardDone callback clears it, isLoading stays true across any event
sequence without that callback, leaving the input form disabled. -/
theorem empty_ticker_descriptor_stalls
    (tf p fv : String) (o : Oracle) (s : DashState)
    (a : AppState) (d : String × String) (evs : List AppEv)
    (hnd : AppEv.dashboardDone ∉ evs) (hl : a.isLoading = true) :
    mainEffect "" tf o s = (s, [], 0) ∧
    defaultPeriodEffect "" tf s = s ∧
    chartEffect "" p o s = (s, []) ∧
    financialEffect "" fv o s = (s, []) ∧
    (∀ b : AppState, b.isLoading = false →
      (handleFormSubmit b d).isLoading = true) ∧
    (appRun a evs).isLoading = true := by
  refine ⟨rfl, rfl, rfl, rfl, fun b hb => by simp [handleFormSubmit, hb], ?_⟩
  revert hnd hl
  induction evs generalizing a with
  | nil => intro _ hl; simpa [appRun] using hl
  | cons e rest ih =>
    intro hnd hl
    simp only [List.mem_cons, not_or] at hnd
    cases e with
    | submit d2 =>
      have hstep : appStep a (AppEv.submit d2) = a := by
        simp [appStep, handleFormSubmit, hl]
      show (appRun (appStep a (AppEv.submit d2)) rest).isLoading = true
      rw [hstep]
      exact ih a hnd.2 hl
    | dashboardDone => exact absurd rfl hnd.1

/-- Witness for empty_ticker_descriptor_stalls at a concrete state and
event sequence: with App already loading and only a further submission
arriving, isLoading remains true. -/
theorem empty_ticker_descriptor_stalls_witness :
    AppEv.dashboardDone ∉ [AppEv.submit ("TSLA", "long-term")] ∧
    (⟨"GOOG", "short-term", true⟩ : AppState).isLoading = true ∧
    (appRun ⟨"GOOG", "short-term", true⟩
      [AppEv.submit ("TSLA", "long-term")]).isLoading = true :=
  ⟨by decide, rfl,
   (empty_ticker_descriptor_stalls "short-term" "1y" "1y" emptyObjOracle
      initialDashState ⟨"GOOG", "short-term", true⟩ ("X", "short-term")
      [AppEv.submit ("TSLA", "long-term")] (by decide) rfl).2.2.2.2.2⟩
